import Mathlib

/-!
Shallow embedding of `src/users/auth.go` of trackit-server: password hashing
(bcrypt-backed) and JWT credential issue/verify.  Times are Unix seconds
modelled as `Int`; the symmetric MAC and the bcrypt digest are modelled
symbolically (a MAC value records the method, the signed claims and the key,
so two MACs agree exactly when all three agree — the ideal-MAC abstraction).
-/

namespace Trackit

/-- Signing algorithm declared in a token's header (`alg`).  `algNone` models
the JWT algorithm "none". -/
inductive SigningMethod
  | HS256
  | HS384
  | HS512
  | RS256
  | ES256
  | algNone
  deriving DecidableEq, Repr

/-- Whether the method is in the HMAC family, i.e. whether the Go type
assertion `token.Method.(*jwt.SigningMethodHMAC)` succeeds. -/
def SigningMethod.isHMAC : SigningMethod → Bool
  | .HS256 => true
  | .HS384 => true
  | .HS512 => true
  | _ => false

/-- The `alg` header string of the method, as interpolated by `%v` in
`fmt.Errorf("Unexpected signing method: %v.", token.Header["alg"])`. -/
def SigningMethod.algName : SigningMethod → String
  | .HS256 => "HS256"
  | .HS384 => "HS384"
  | .HS512 => "HS512"
  | .RS256 => "RS256"
  | .ES256 => "ES256"
  | .algNone => "none"

/-- The process-wide configuration loaded in `init()`: `bCryptCost`,
`jwtIssuer`, `jwtSecret`. -/
structure SigningConfig where
  hashCost : Nat
  issuer : String
  secret : List Nat
  deriving DecidableEq, Repr

/-- `jwtClaims` of auth.go: issuer (`iss`), notBefore (`nbf`), expires
(`exp`), subject (`sub`).  The embedded `jwt.StandardClaims` fields are
shadowed by these json tags and stay at their zero values, so its promoted
`Valid()` method always succeeds; it is therefore not modelled. -/
structure jwtClaims where
  Issuer : String
  NotBefore : Int
  Expires : Int
  Subject : Int
  deriving DecidableEq, Repr

/-- A symbolic MAC value: determined by (and determining) the method, the
signed claims and the key used. -/
structure Mac where
  method : SigningMethod
  claims : jwtClaims
  key : List Nat
  deriving DecidableEq, Repr

/-- Computing the MAC over the serialized header+claims with a key. -/
def computeMac (m : SigningMethod) (c : jwtClaims) (k : List Nat) : Mac :=
  ⟨m, c, k⟩

/-- A structurally well-formed token: declared algorithm, claims, and the
attached signature. -/
structure Token where
  method : SigningMethod
  claims : jwtClaims
  sig : Mac
  deriving DecidableEq, Repr

/-- A token string on the wire: either it fails to parse, or it parses to a
`Token`. -/
inductive TokenWire
  | malformed
  | parsed (t : Token)
  deriving DecidableEq, Repr

/-- Modelled from the spec: the external `User` identity ("opaque to this
core beyond an integer identifier"); `users.User` itself is outside src/. -/
structure User where
  Id : Int
  deriving DecidableEq, Repr

/-- The Go zero value of `User`, as declared by `var user User`. -/
def User.zero : User := ⟨0⟩

/-- Error kinds surfaced by the verification path of auth.go. -/
inductive AuthError
  | parseError
  | unexpectedAlgorithm (msg : String)
  | invalidSignature
  | unreadableClaims
  | claimsInvalid
  | identityResolution (msg : String)
  deriving DecidableEq, Repr

/-- `generateToken` of auth.go: claims with `Issuer = jwtIssuer`,
`NotBefore = now - 1h`, `Expires = now + 60*24h`, `Subject = user.Id`,
signed with HS256 under `jwtSecret`. -/
def generateToken (cfg : SigningConfig) (now : Int) (user : User) : Token :=
  let claims : jwtClaims :=
    { Issuer := cfg.issuer
      NotBefore := now - 3600
      Expires := now + 60 * 24 * 3600
      Subject := user.Id }
  { method := SigningMethod.HS256
    claims := claims
    sig := computeMac SigningMethod.HS256 claims cfg.secret }

/-- `getTokenSigningKey` of auth.go: hand the secret to the library only for
HMAC-family methods, otherwise an error naming the declared algorithm. -/
def getTokenSigningKey (cfg : SigningConfig) (token : Token) :
    Except String (List Nat) :=
  if token.method.isHMAC then
    Except.ok cfg.secret
  else
    Except.error ("Unexpected signing method: " ++ token.method.algName ++ ".")

/-- Modelled from the spec: the jwt-go `ParseWithClaims` pipeline (steps 1-3
of the verifier: parse, algorithm check through the key callback, MAC
verification); jwt-go itself is an external dependency.  The key callback is
consulted before any signature comparison, mirroring the library. -/
def parseWithClaims (cfg : SigningConfig) (w : TokenWire) :
    Except AuthError Token :=
  match w with
  | TokenWire.malformed => Except.error AuthError.parseError
  | TokenWire.parsed t =>
    match getTokenSigningKey cfg t with
    | Except.error msg => Except.error (AuthError.unexpectedAlgorithm msg)
    | Except.ok key =>
      if t.sig = computeMac t.method t.claims key then
        Except.ok t
      else
        Except.error AuthError.invalidSignature

/-- `areClaimsValid` of auth.go. -/
def areClaimsValid (cfg : SigningConfig) (now : Int) (claims : jwtClaims) :
    Bool :=
  claims.Issuer == cfg.issuer
    && decide (claims.NotBefore ≤ now)
    && decide (now < claims.Expires)

/-- `testToken` of auth.go.  `getUserWithId` stands for the external lookup
collaborator `GetUserWithId(db.Db, userId)`, returning a `User` and an
optional error exactly as the Go call does.  When `ParseWithClaims` returns
a nil error the claims pointer type assertion succeeds and `token.Valid` is
true, so the "Failed to read token." branch is not reachable and the success
case goes straight to the claims check. -/
def testToken (cfg : SigningConfig) (now : Int)
    (getUserWithId : Int → User × Option AuthError) (w : TokenWire) :
    User × Option AuthError :=
  match parseWithClaims cfg w with
  | Except.error e => (User.zero, some e)
  | Except.ok token =>
    if areClaimsValid cfg now token.claims then
      getUserWithId token.claims.Subject
    else
      (User.zero, some AuthError.claimsInvalid)

/-- Error kinds of the password path. -/
inductive PasswordError
  | hashingError
  | mismatchError
  | malformedHashError
  deriving DecidableEq, Repr

/-- Modelled from the spec: a bcrypt hash value, the "self-describing encoded
string (algorithm+cost+salt+digest)"; the bcrypt primitive is an external
dependency. -/
structure BcryptHash where
  cost : Nat
  salt : String
  digest : String
  deriving DecidableEq, Repr

/-- Modelled from the spec: the bcrypt digest, a deterministic function of
cost, salt and password, idealized as collision-free (injective in the
password for a fixed salt). -/
def bcryptDigest (cost : Nat) (salt : String) (password : String) : String :=
  salt ++ password

/-- Modelled from the spec: bcrypt clamps a cost below its minimum (4) to
the default cost (10). -/
def effectiveCost (cost : Nat) : Nat :=
  if cost < 4 then 10 else cost

/-- `getPasswordHash` of auth.go over the modelled bcrypt primitive
(`bcrypt.GenerateFromPassword` with cost `bCryptCost` and a fresh `salt`):
fails if the primitive rejects the cost or the password length bound (72
bytes), otherwise produces the encoded hash. -/
def getPasswordHash (cfg : SigningConfig) (salt : String) (password : String) :
    Except PasswordError BcryptHash :=
  if 31 < cfg.hashCost then
    Except.error PasswordError.hashingError
  else if 72 < password.length then
    Except.error PasswordError.hashingError
  else
    Except.ok
      ⟨effectiveCost cfg.hashCost, salt,
        bcryptDigest (effectiveCost cfg.hashCost) salt password⟩

/-- The encoded string form of a hash: algorithm tag, cost, salt, digest. -/
def serializeHash (h : BcryptHash) : String :=
  "$2a$" ++ toString h.cost ++ "$" ++ h.salt ++ h.digest

/-- `passwordMatchesHash` of auth.go over the modelled bcrypt primitive
(`bcrypt.CompareHashAndPassword`): recompute the digest with the cost and
salt recorded in the hash and compare. -/
def passwordMatchesHash (password : String) (h : BcryptHash) :
    Option PasswordError :=
  if h.digest = bcryptDigest h.cost h.salt password then
    none
  else
    some PasswordError.mismatchError

end Trackit

namespace Trackit

/-- Left-cancellation of string append, used for the injectivity of the
modelled bcrypt digest. -/
theorem string_append_left_cancel {s a b : String} (h : s ++ a = s ++ b) :
    a = b := by
  apply String.ext
  have hd : s.data ++ a.data = s.data ++ b.data := by
    have := congrArg String.data h
    simpa using this
  exact List.append_cancel_left hd

/-- C1: verifying a token freshly issued for `u` (same instant, lookup
collaborator returning `u` for `u.Id`) succeeds and resolves to `u`; the
subject carried by the token is `u`'s identifier. -/
theorem verify_issue_roundtrip (cfg : SigningConfig) (now : Int) (u : User)
    (lookup : Int → User × Option AuthError)
    (hlookup : lookup u.Id = (u, none)) :
    (generateToken cfg now u).claims.Subject = u.Id ∧
    testToken cfg now lookup (TokenWire.parsed (generateToken cfg now u)) =
      (u, none) := by
  refine ⟨rfl, ?_⟩
  have h1 : now - 3600 ≤ now := by omega
  have h2 : now < now + 60 * 24 * 3600 := by omega
  simp [testToken, parseWithClaims, generateToken, getTokenSigningKey,
    computeMac, areClaimsValid, SigningMethod.isHMAC, h1, h2, hlookup]

/-- C1 witness at a concrete identity, instant, config and lookup. -/
theorem verify_issue_roundtrip_witness :
    testToken ⟨10, "trackit", [1, 2, 3]⟩ 1000000
      (fun id => (⟨id⟩, none))
      (TokenWire.parsed
        (generateToken ⟨10, "trackit", [1, 2, 3]⟩ 1000000 ⟨42⟩)) =
      (⟨42⟩, none) :=
  (verify_issue_roundtrip ⟨10, "trackit", [1, 2, 3]⟩ 1000000 ⟨42⟩
    (fun id => (⟨id⟩, none)) rfl).2

end Trackit

namespace Trackit

/-- C2: for a parsed, correctly signed token, the claims check accepts
exactly when the issuer equals the configured issuer, notBefore ≤ now and
now < expiresAt (so the boundary instants behave as stated); any violation
makes verification fail with the claims-invalid error. -/
theorem claims_validity_exact (cfg : SigningConfig) (now : Int) (t : Token)
    (lookup : Int → User × Option AuthError)
    (halg : t.method.isHMAC = true)
    (hsig : t.sig = computeMac t.method t.claims cfg.secret) :
    (areClaimsValid cfg now t.claims = true ↔
      (t.claims.Issuer = cfg.issuer ∧ t.claims.NotBefore ≤ now ∧
        now < t.claims.Expires)) ∧
    (¬ (t.claims.Issuer = cfg.issuer ∧ t.claims.NotBefore ≤ now ∧
        now < t.claims.Expires) →
      testToken cfg now lookup (TokenWire.parsed t) =
        (User.zero, some AuthError.claimsInvalid)) := by
  have hiff : areClaimsValid cfg now t.claims = true ↔
      (t.claims.Issuer = cfg.issuer ∧ t.claims.NotBefore ≤ now ∧
        now < t.claims.Expires) := by
    simp [areClaimsValid, and_assoc]
  refine ⟨hiff, fun hviol => ?_⟩
  have hfalse : ¬ areClaimsValid cfg now t.claims = true := fun h =>
    hviol (hiff.mp h)
  simp [testToken, parseWithClaims, getTokenSigningKey, halg, hsig, hfalse]

/-- C2 witness: rejected at the very instant now = expiresAt. -/
theorem claims_validity_exact_witness :
    testToken ⟨10, "trackit", [1]⟩ 100 (fun id => (⟨id⟩, none))
      (TokenWire.parsed ⟨SigningMethod.HS256, ⟨"trackit", 0, 100, 7⟩,
        computeMac SigningMethod.HS256 ⟨"trackit", 0, 100, 7⟩ [1]⟩) =
      (User.zero, some AuthError.claimsInvalid) :=
  (claims_validity_exact ⟨10, "trackit", [1]⟩ 100
    ⟨SigningMethod.HS256, ⟨"trackit", 0, 100, 7⟩,
      computeMac SigningMethod.HS256 ⟨"trackit", 0, 100, 7⟩ [1]⟩
    (fun id => (⟨id⟩, none)) rfl rfl).2 (by decide)

/-- C3: issued claims carry the configured issuer, notBefore = mint time
minus one hour, expiresAt = mint time plus sixty days, subject = the
identity's id, and hence notBefore < expiresAt at mint time. -/
theorem generateToken_claims (cfg : SigningConfig) (now : Int) (u : User) :
    ((generateToken cfg now u).claims.Issuer = cfg.issuer ∧
     (generateToken cfg now u).claims.NotBefore = now - 3600 ∧
     (generateToken cfg now u).claims.Expires = now + 60 * 24 * 3600 ∧
     (generateToken cfg now u).claims.Subject = u.Id) ∧
    (generateToken cfg now u).claims.NotBefore <
      (generateToken cfg now u).claims.Expires := by
  refine ⟨⟨rfl, rfl, rfl, rfl⟩, ?_⟩
  show now - 3600 < now + 60 * 24 * 3600
  omega

/-- C4: a token declaring a non-HMAC algorithm (including "none") fails with
the unexpected-algorithm error, and the outcome of the parse/verify pipeline
does not depend on the attached signature at all — so in particular it is
rejected even when the attached signature would verify, before any signature
comparison. -/
theorem non_hmac_rejected (cfg : SigningConfig) (now : Int)
    (lookup : Int → User × Option AuthError) (t : Token)
    (h : t.method.isHMAC = false) :
    testToken cfg now lookup (TokenWire.parsed t) =
      (User.zero, some (AuthError.unexpectedAlgorithm
        ("Unexpected signing method: " ++ t.method.algName ++ "."))) ∧
    (∀ sig : Mac,
      parseWithClaims cfg (TokenWire.parsed ⟨t.method, t.claims, sig⟩) =
        parseWithClaims cfg (TokenWire.parsed t)) := by
  constructor
  · simp [testToken, parseWithClaims, getTokenSigningKey, h]
  · intro sig
    simp [parseWithClaims, getTokenSigningKey, h]

/-- C4 witness: an alg-"none" token whose attached signature is precisely
the MAC under the configured secret is still rejected. -/
theorem non_hmac_rejected_witness :
    testToken ⟨10, "trackit", [1]⟩ 0 (fun id => (⟨id⟩, none))
      (TokenWire.parsed ⟨SigningMethod.algNone, ⟨"trackit", -10, 10, 7⟩,
        computeMac SigningMethod.algNone ⟨"trackit", -10, 10, 7⟩ [1]⟩) =
      (User.zero, some (AuthError.unexpectedAlgorithm
        ("Unexpected signing method: " ++ SigningMethod.algNone.algName
          ++ "."))) :=
  (non_hmac_rejected ⟨10, "trackit", [1]⟩ 0 (fun id => (⟨id⟩, none))
    ⟨SigningMethod.algNone, ⟨"trackit", -10, 10, 7⟩,
      computeMac SigningMethod.algNone ⟨"trackit", -10, 10, 7⟩ [1]⟩ rfl).1

/-- C5: a well-formed HMAC-family token whose MAC was computed with a secret
different from the configured one fails with the invalid-signature error. -/
theorem wrong_secret_rejected (cfg : SigningConfig) (now : Int)
    (lookup : Int → User × Option AuthError) (m : SigningMethod)
    (c : jwtClaims) (k : List Nat)
    (halg : m.isHMAC = true) (hk : k ≠ cfg.secret) :
    testToken cfg now lookup (TokenWire.parsed ⟨m, c, computeMac m c k⟩) =
      (User.zero, some AuthError.invalidSignature) := by
  simp [testToken, parseWithClaims, getTokenSigningKey, halg, computeMac,
    Mac.mk.injEq, hk]

/-- C5 witness: an otherwise valid, unexpired token signed under a different
secret is rejected with the invalid-signature error. -/
theorem wrong_secret_rejected_witness :
    ([9] : List Nat) ≠ [1] ∧
    testToken ⟨10, "trackit", [1]⟩ 50 (fun id => (⟨id⟩, none))
      (TokenWire.parsed ⟨SigningMethod.HS256, ⟨"trackit", 0, 100, 7⟩,
        computeMac SigningMethod.HS256 ⟨"trackit", 0, 100, 7⟩ [9]⟩) =
      (User.zero, some AuthError.invalidSignature) :=
  ⟨by decide,
    wrong_secret_rejected ⟨10, "trackit", [1]⟩ 50 (fun id => (⟨id⟩, none))
      SigningMethod.HS256 ⟨"trackit", 0, 100, 7⟩ [9] rfl (by decide)⟩

end Trackit

namespace Trackit

/-- C6: for a non-empty password whose hashing succeeds, matching the
password against its own hash succeeds, and the encoded hash string differs
from the password. -/
theorem hash_roundtrip (cfg : SigningConfig) (salt password : String)
    (h : BcryptHash) (hne : password ≠ "")
    (hh : getPasswordHash cfg salt password = Except.ok h) :
    passwordMatchesHash password h = none ∧ serializeHash h ≠ password := by
  unfold getPasswordHash at hh
  split at hh
  · exact absurd hh (by simp)
  · split at hh
    · exact absurd hh (by simp)
    · have hrep : h = ⟨effectiveCost cfg.hashCost, salt,
          bcryptDigest (effectiveCost cfg.hashCost) salt password⟩ := by
        injection hh with hh
        exact hh.symm
      subst hrep
      constructor
      · simp [passwordMatchesHash]
      · intro heq
        have hlen := congrArg String.length heq
        have h4 : ("$2a$" : String).length = 4 := by decide
        have h1 : ("$" : String).length = 1 := by decide
        simp [serializeHash, bcryptDigest, String.length_append, h4, h1]
          at hlen
        omega

/-- C6 witness at a concrete password and salt. -/
theorem hash_roundtrip_witness :
    passwordMatchesHash "pw" ⟨10, "ab", bcryptDigest 10 "ab" "pw"⟩ = none ∧
    serializeHash ⟨10, "ab", bcryptDigest 10 "ab" "pw"⟩ ≠ "pw" :=
  hash_roundtrip ⟨10, "ab", []⟩ "ab" "pw"
    ⟨10, "ab", bcryptDigest 10 "ab" "pw"⟩ (by decide) rfl

/-- C7: matching a password against the hash of a different password fails
with the mismatch error. -/
theorem hash_mismatch (cfg : SigningConfig) (salt p1 p2 : String)
    (h : BcryptHash) (hne : p1 ≠ p2)
    (hh : getPasswordHash cfg salt p2 = Except.ok h) :
    passwordMatchesHash p1 h = some PasswordError.mismatchError := by
  unfold getPasswordHash at hh
  split at hh
  · exact absurd hh (by simp)
  · split at hh
    · exact absurd hh (by simp)
    · have hrep : h = ⟨effectiveCost cfg.hashCost, salt,
          bcryptDigest (effectiveCost cfg.hashCost) salt p2⟩ := by
        injection hh with hh
        exact hh.symm
      subst hrep
      have hdig : bcryptDigest (effectiveCost cfg.hashCost) salt p2 ≠
          bcryptDigest (effectiveCost cfg.hashCost) salt p1 := by
        intro hd
        exact hne (string_append_left_cancel hd).symm
      simp [passwordMatchesHash, hdig]

/-- C7 witness at a concrete pair of distinct passwords. -/
theorem hash_mismatch_witness :
    passwordMatchesHash "pw1" ⟨10, "ab", bcryptDigest 10 "ab" "pw2"⟩ =
      some PasswordError.mismatchError :=
  hash_mismatch ⟨10, "ab", []⟩ "ab" "pw1" "pw2"
    ⟨10, "ab", bcryptDigest 10 "ab" "pw2"⟩ (by decide) rfl

/-- C8 counterexample: three correctly signed tokens failing for the three
different causes - wrong issuer, expired, and not yet valid - produce
literally identical failure results from the verifier (the same error value,
with no distinguishing kind or detail), so the causes are not
distinguishable in the failure result. -/
theorem claims_causes_indistinguishable_cex :
    testToken ⟨10, "trackit", [1]⟩ 1000 (fun id => (⟨id⟩, none))
      (TokenWire.parsed ⟨SigningMethod.HS256, ⟨"other", 0, 2000, 7⟩,
        computeMac SigningMethod.HS256 ⟨"other", 0, 2000, 7⟩ [1]⟩) =
    testToken ⟨10, "trackit", [1]⟩ 1000 (fun id => (⟨id⟩, none))
      (TokenWire.parsed ⟨SigningMethod.HS256, ⟨"trackit", 0, 500, 7⟩,
        computeMac SigningMethod.HS256 ⟨"trackit", 0, 500, 7⟩ [1]⟩) ∧
    testToken ⟨10, "trackit", [1]⟩ 1000 (fun id => (⟨id⟩, none))
      (TokenWire.parsed ⟨SigningMethod.HS256, ⟨"trackit", 0, 500, 7⟩,
        computeMac SigningMethod.HS256 ⟨"trackit", 0, 500, 7⟩ [1]⟩) =
    testToken ⟨10, "trackit", [1]⟩ 1000 (fun id => (⟨id⟩, none))
      (TokenWire.parsed ⟨SigningMethod.HS256, ⟨"trackit", 2000, 3000, 7⟩,
        computeMac SigningMethod.HS256 ⟨"trackit", 2000, 3000, 7⟩ [1]⟩) ∧
    testToken ⟨10, "trackit", [1]⟩ 1000 (fun id => (⟨id⟩, none))
      (TokenWire.parsed ⟨SigningMethod.HS256, ⟨"other", 0, 2000, 7⟩,
        computeMac SigningMethod.HS256 ⟨"other", 0, 2000, 7⟩ [1]⟩) =
      (User.zero, some AuthError.claimsInvalid) := by
  decide

/-- C8 amended: any two correctly signed tokens failing the claims check -
whichever of the three causes applies - yield identical failure results: one
generic claims-invalid error with no distinguishing detail. -/
theorem claims_causes_collapse (cfg : SigningConfig) (now : Int)
    (lookup : Int → User × Option AuthError) (t1 t2 : Token)
    (halg1 : t1.method.isHMAC = true)
    (hsig1 : t1.sig = computeMac t1.method t1.claims cfg.secret)
    (h1 : areClaimsValid cfg now t1.claims = false)
    (halg2 : t2.method.isHMAC = true)
    (hsig2 : t2.sig = computeMac t2.method t2.claims cfg.secret)
    (h2 : areClaimsValid cfg now t2.claims = false) :
    testToken cfg now lookup (TokenWire.parsed t1) =
      testToken cfg now lookup (TokenWire.parsed t2) ∧
    testToken cfg now lookup (TokenWire.parsed t1) =
      (User.zero, some AuthError.claimsInvalid) := by
  simp [testToken, parseWithClaims, getTokenSigningKey, halg1, halg2,
    hsig1, hsig2, h1, h2]

/-- C8 amended witness: the wrong-issuer and expired tokens above. -/
theorem claims_causes_collapse_witness :
    testToken ⟨10, "trackit", [1]⟩ 1000 (fun id => (⟨id⟩, none))
      (TokenWire.parsed ⟨SigningMethod.HS256, ⟨"other", 0, 2000, 7⟩,
        computeMac SigningMethod.HS256 ⟨"other", 0, 2000, 7⟩ [1]⟩) =
    testToken ⟨10, "trackit", [1]⟩ 1000 (fun id => (⟨id⟩, none))
      (TokenWire.parsed ⟨SigningMethod.HS256, ⟨"trackit", 0, 500, 7⟩,
        computeMac SigningMethod.HS256 ⟨"trackit", 0, 500, 7⟩ [1]⟩) ∧
    testToken ⟨10, "trackit", [1]⟩ 1000 (fun id => (⟨id⟩, none))
      (TokenWire.parsed ⟨SigningMethod.HS256, ⟨"other", 0, 2000, 7⟩,
        computeMac SigningMethod.HS256 ⟨"other", 0, 2000, 7⟩ [1]⟩) =
      (User.zero, some AuthError.claimsInvalid) :=
  claims_causes_collapse ⟨10, "trackit", [1]⟩ 1000 (fun id => (⟨id⟩, none))
    ⟨SigningMethod.HS256, ⟨"other", 0, 2000, 7⟩,
      computeMac SigningMethod.HS256 ⟨"other", 0, 2000, 7⟩ [1]⟩
    ⟨SigningMethod.HS256, ⟨"trackit", 0, 500, 7⟩,
      computeMac SigningMethod.HS256 ⟨"trackit", 0, 500, 7⟩ [1]⟩
    rfl rfl (by decide) rfl rfl (by decide)

/-- C9: the algorithm check hands the signing secret to every HMAC-family
method (HS256, HS384 and HS512 all pass), not only the HS256 variant the
issuer uses, and errors exactly on non-HMAC methods. -/
theorem hmac_family_accepted (cfg : SigningConfig) :
    (∀ t : Token, t.method.isHMAC = true →
      getTokenSigningKey cfg t = Except.ok cfg.secret) ∧
    (∀ t : Token, t.method.isHMAC = false →
      getTokenSigningKey cfg t = Except.error
        ("Unexpected signing method: " ++ t.method.algName ++ ".")) ∧
    (SigningMethod.HS256.isHMAC = true ∧ SigningMethod.HS384.isHMAC = true ∧
      SigningMethod.HS512.isHMAC = true) ∧
    (∀ (now : Int) (u : User),
      (generateToken cfg now u).method = SigningMethod.HS256) := by
  refine ⟨?_, ?_, by decide, fun now u => rfl⟩
  · intro t h
    simp [getTokenSigningKey, h]
  · intro t h
    simp [getTokenSigningKey, h]

/-- C9 witness: an HS384 token receives the secret from the check even
though the issuer only ever mints HS256. -/
theorem hmac_family_accepted_witness :
    getTokenSigningKey ⟨10, "trackit", [1]⟩
      ⟨SigningMethod.HS384, ⟨"trackit", 0, 1, 0⟩,
        computeMac SigningMethod.HS384 ⟨"trackit", 0, 1, 0⟩ [1]⟩ =
      Except.ok [1] :=
  (hmac_family_accepted ⟨10, "trackit", [1]⟩).1
    ⟨SigningMethod.HS384, ⟨"trackit", 0, 1, 0⟩,
      computeMac SigningMethod.HS384 ⟨"trackit", 0, 1, 0⟩ [1]⟩ rfl

/-- C10: every failure before identity resolution (parse failure, unexpected
algorithm, invalid signature, or invalid claims) makes testToken return the
zero-value User together with an error, and a non-zero User can only be the
value produced by the lookup collaborator. -/
theorem zero_user_before_resolution (cfg : SigningConfig) (now : Int)
    (lookup : Int → User × Option AuthError) (w : TokenWire) :
    (∀ e, parseWithClaims cfg w = Except.error e →
      testToken cfg now lookup w = (User.zero, some e)) ∧
    (∀ t, parseWithClaims cfg w = Except.ok t →
      areClaimsValid cfg now t.claims = false →
      testToken cfg now lookup w = (User.zero, some AuthError.claimsInvalid)) ∧
    ((testToken cfg now lookup w).1 ≠ User.zero →
      ∃ t, parseWithClaims cfg w = Except.ok t ∧
        areClaimsValid cfg now t.claims = true ∧
        testToken cfg now lookup w = lookup t.claims.Subject) := by
  refine ⟨fun e he => by simp [testToken, he], fun t ht hf => by
    simp [testToken, ht, hf], fun hne => ?_⟩
  cases hp : parseWithClaims cfg w with
  | error e =>
    exact absurd (by simp [testToken, hp]) hne
  | ok t =>
    by_cases hv : areClaimsValid cfg now t.claims = true
    · exact ⟨t, rfl, hv, by simp [testToken, hp, hv]⟩
    · exact absurd (by simp [testToken, hp, hv]) hne

/-- C10 witness: a malformed token string yields the zero User and the parse
error. -/
theorem zero_user_before_resolution_witness :
    testToken ⟨10, "trackit", [1]⟩ 0 (fun id => (⟨id⟩, none))
      TokenWire.malformed = (User.zero, some AuthError.parseError) :=
  (zero_user_before_resolution ⟨10, "trackit", [1]⟩ 0 (fun id => (⟨id⟩, none))
    TokenWire.malformed).1 AuthError.parseError rfl

end Trackit
